import Mathlib

/- Verification development for the Birdwave.fm generative-audio engine
   (src/script.js).  The pure helpers (snapToScale, the energy-window slice
   scan) are embedded directly; the play/stop audio-graph lifecycle and the
   sequencer loops are embedded as explicit state-passing models whose
   transitions mirror the source line by line.  Sample amplitudes are
   modelled as rationals. -/

namespace Birdwave

/- ### PitchMapper: snapToScale, script.js lines 89-101 -/

/-- The `for (let deg of scale)` loop of snapToScale (lines 95-99): keeps the
candidate `best` note, replacing it when a scale degree is strictly closer
to `midi` (so distance ties keep the earlier match). -/
def snapGo (midi base : Int) : List Int → Nat → Int → Int
  | [], _, best => best
  | deg :: rest, bestDiff, best =>
    if (midi - (base + deg)).natAbs < bestDiff then
      snapGo midi base rest (midi - (base + deg)).natAbs (base + deg)
    else
      snapGo midi base rest bestDiff best

/-- snapToScale (lines 89-101): midi = 60 + semitone, octave = floor
((midi - rootMidi)/12), base = rootMidi + octave*12; the initial candidate is
base + scale[0] and the loop scans the whole scale.  The JS code indexes
scale[0], so an empty scale is outside the function's domain (it would yield
NaN); the model returns 0 there and every theorem assumes a non-empty scale. -/
def snapToScale (semitone rootMidi : Int) (scale : List Int) : Int :=
  let midi := 60 + semitone
  let octave := (midi - rootMidi).fdiv 12
  let base := rootMidi + octave * 12
  match scale with
  | [] => 0
  | s0 :: _ => snapGo midi base scale (midi - (base + s0)).natAbs (base + s0) - 60

/- ### SliceDetector: findBestSliceTime, script.js lines 104-134 -/

/-- Total energy (sum of squared amplitudes) of the window of `w` samples
starting at index `start`. -/
def windowEnergy (channel : List ℚ) (start w : Nat) : ℚ :=
  (((channel.drop start).take w).map (fun s => s * s)).sum

/-- The second loop of findBestSliceTime (lines 121-128).  Each entry of
`pairs` is (channel[i], channel[i - windowSamples]) and `pos` is
i - windowSamples; the running sum adds the new square and drops the old one,
and on a strict improvement the code records `bestPos = i - windowSamples`
(the position one BEFORE the window the running sum now covers). -/
def sliceLoop : List (ℚ × ℚ) → Nat → ℚ → ℚ → Nat → Nat
  | [], _, _, _, bestPos => bestPos
  | (newS, oldS) :: rest, pos, running, bestEnergy, bestPos =>
    let r := running + newS * newS - oldS * oldS
    if bestEnergy < r then sliceLoop rest (pos + 1) r r pos
    else sliceLoop rest (pos + 1) r bestEnergy bestPos

/-- The scan of findBestSliceTime over a decoded channel: the first loop
(lines 116-119) seeds the running sum with the first min(windowSamples,
length) squares and bestPos = 0; the second loop runs i from windowSamples to
length - 1, i.e. over `(channel.drop windowSamples).zip channel`. -/
def findBestSlicePos (channel : List ℚ) (windowSamples : Nat) : Nat :=
  let initRunning := windowEnergy channel 0 (min windowSamples channel.length)
  sliceLoop ((channel.drop windowSamples).zip channel) 0 initRunning initRunning 0

/-- windowSamples = Math.floor((msWindow / 1000) * sampleRate), line 111. -/
def windowSamplesOf (msWindow sampleRate : ℚ) : Nat :=
  (Int.floor (msWindow / 1000 * sampleRate)).toNat

/-- findBestSliceTime (lines 104-134) with the fetch+decode outcome made
explicit: on success it returns max(0, bestPos / sampleRate); the surrounding
try/catch (lines 105, 130-133) turns ANY failure into a normal return of 0,
so the function never rejects. -/
def findBestSliceTimeE (fetched : Except String (List ℚ × ℚ)) (msWindow : ℚ) :
    Except String ℚ :=
  match fetched with
  | Except.error _ => Except.ok 0
  | Except.ok (channel, sampleRate) =>
    let w := windowSamplesOf msWindow sampleRate
    Except.ok (max 0 ((findBestSlicePos channel w : ℚ) / sampleRate))

/-- The slice time playProduction actually uses (lines 334-335):
`let sliceTime = 0.3; try { sliceTime = await findBestSliceTime(audioUrl,
120).catch(() => 0.3); } catch (e) { sliceTime = 0.3; }` — the 0.3 branches
fire only if findBestSliceTime itself rejected. -/
def sliceTimeUsed (fetched : Except String (List ℚ × ℚ)) : ℚ :=
  match findBestSliceTimeE fetched 120 with
  | Except.ok v => v
  | Except.error _ => 3 / 10

/- ### Sequencer loops of createAttentionLike, script.js lines 249-285 -/

/-- The four per-voice step counters (drumStep, bassStep, chordStep, mStep),
all starting at 0. -/
structure SeqCounters where
  drumStep : Nat
  bassStep : Nat
  chordStep : Nat
  mStep : Nat
  deriving DecidableEq, Repr

/-- Audible events a loop callback emits on one clock tick. -/
inductive Ev
  | kick
  | snare
  | hat
  | bassNote (note : String)
  | chordHit (notes : List String)
  | leadNote (note : String)
  | padDuckRamp
  deriving DecidableEq, Repr

/-- drumLoop callback (lines 250-256): pos = drumStep % 16; kick on 0 and 8,
snare on 4 and 12, hat on every even pos; then drumStep++. -/
def drumTick (s : SeqCounters) : SeqCounters × List Ev :=
  let pos := s.drumStep % 16
  let kicks := if pos = 0 ∨ pos = 8 then [Ev.kick] else []
  let snares := if pos = 4 ∨ pos = 12 then [Ev.snare] else []
  let hats := if pos % 2 = 0 then [Ev.hat] else []
  ({ s with drumStep := s.drumStep + 1 }, kicks ++ snares ++ hats)

/-- bassPattern, line 259. -/
def bassPattern : List String := ["C2", "C2", "A1", "A1", "F1", "F1", "G1", "G1"]

/-- bassLoop callback (lines 260-263): plays bassPattern[bassStep % 8], then
bassStep++. -/
def bassTick (s : SeqCounters) : SeqCounters × List Ev :=
  ({ s with bassStep := s.bassStep + 1 },
    [Ev.bassNote (bassPattern.getD (s.bassStep % bassPattern.length) "")])

/-- chordLoop callback (lines 266-269): plays chords[chordStep % length],
then chordStep++. -/
def chordTick (chords : List (List String)) (s : SeqCounters) :
    SeqCounters × List Ev :=
  ({ s with chordStep := s.chordStep + 1 },
    [Ev.chordHit (chords.getD (s.chordStep % chords.length) [])])

/-- The melody callback as constructed at lines 272-275: triggers the lead on
melodyNotes[mStep % length], then mStep++. -/
def melodyTickInitial (melodyNotes : List String) (s : SeqCounters) :
    SeqCounters × List Ev :=
  ({ s with mStep := s.mStep + 1 },
    [Ev.leadNote (melodyNotes.getD (s.mStep % melodyNotes.length) "")])

/-- The callback assigned by `melodyLoop.callback = (time) => {...}` at lines
279-285.  The assignment REPLACES the constructed callback entirely: the new
closure only re-ramps padGain (duck to 0.7, ramp back over (60/bpm)*0.6) and
touches neither mStep nor the lead synth. -/
def melodyTickReplaced (s : SeqCounters) : SeqCounters × List Ev :=
  (s, [Ev.padDuckRamp])

/-- The callback the melody loop actually runs once createAttentionLike has
returned (the line-279 assignment happens before the transport is started, so
it is in force from the very first tick). -/
def melodyTick : SeqCounters → SeqCounters × List Ev := melodyTickReplaced

/-- Default melody of the Attention arrangement (line 231). -/
def attentionMelody : List String :=
  ["E5", "G5", "A5", "G5", "E5", "D5", "C5", "D5"]

/-- Default chord list of the Attention arrangement (line 231). -/
def attentionChords : List (List String) :=
  [["C4", "E4", "G4", "B3"], ["A3", "C4", "E4", "A4"],
   ["F3", "A3", "C4", "F4"], ["G3", "B3", "D4", "G4"]]

/-- Run one loop callback n times (n ticks of that loop's own subdivision),
keeping the final counters. -/
def stepN (f : SeqCounters → SeqCounters × List Ev) : Nat → SeqCounters → SeqCounters
  | 0, s => s
  | n + 1, s => stepN f n (f s).1

/-- All counters start at zero when createAttentionLike builds the loops. -/
def seq0 : SeqCounters := ⟨0, 0, 0, 0⟩

/- ### Audio-graph lifecycle: playProduction / stopPlay,
      script.js lines 136-228 and 322-406 -/

/-- One tag per audio node or loop the engine allocates for a play.
Master bus (createMasterBus, lines 175-199): comp, low, sat, reverb, limiter,
wobble LFO, vinyl noise, vFilt, vGain.  Voices (createAttentionLike plus
createSampleHook and drumsKit): pad, padGain, lead, bass, hookPlayer, hookEnv,
hookGain, kick, snare, hat.  Transport loops: drumLoop, bassLoop, chordLoop,
melodyLoop, hookLoop. -/
inductive Tag
  | comp
  | low
  | sat
  | reverb
  | limiter
  | wobble
  | vinyl
  | vFilt
  | vGain
  | pad
  | padGain
  | lead
  | bass
  | hookPlayer
  | hookEnv
  | hookGain
  | kick
  | snare
  | hat
  | drumLoop
  | bassLoop
  | chordLoop
  | melodyLoop
  | hookLoop
  deriving DecidableEq, Repr

/-- Audio-resource state: `gen` counts plays begun (each play builds its own
generation of nodes), `live` holds allocated-and-not-disposed nodes,
`runningSources` the started-and-not-stopped free-running sources (vinyl
noise, wobble LFO), `scheduled` the loops with pending transport events, and
`transportRunning` the shared clock. -/
structure AudioState where
  gen : Nat
  live : List (Nat × Tag)
  runningSources : List (Nat × Tag)
  scheduled : List (Nat × Tag)
  transportRunning : Bool
  deriving DecidableEq, Repr

/-- Application playback state: the ambient globals activeTrack (stored as the
generation number of the graph it references), isPlaying, plus a flag
recording that handleError reported a playback error to the user. -/
structure AppState where
  audio : AudioState
  activeTrack : Option Nat
  isPlaying : Bool
  errorReported : Bool
  deriving DecidableEq, Repr

/-- Nodes created by createMasterBus (lines 175-198), in creation order. -/
def masterBusTags : List Tag :=
  [Tag.comp, Tag.low, Tag.sat, Tag.reverb, Tag.limiter,
   Tag.wobble, Tag.vinyl, Tag.vFilt, Tag.vGain]

/-- createMasterBus: allocates the nine bus nodes, connects the limiter to the
destination, and starts the wobble LFO (line 187) and vinyl noise (line 196),
which run on the raw audio context, independent of the transport. -/
def createMasterBus (g : Nat) (a : AudioState) : AudioState :=
  { a with
    live := a.live ++ masterBusTags.map (fun t => (g, t)),
    runningSources := a.runningSources ++ [(g, Tag.wobble), (g, Tag.vinyl)] }

/-- Instrument nodes created while building one style instance
(createAttentionLike lines 231-247, createSampleHook lines 144-149, drumsKit
lines 223-228), in creation order. -/
def voiceTags : List Tag :=
  [Tag.pad, Tag.padGain, Tag.lead, Tag.bass,
   Tag.hookPlayer, Tag.hookEnv, Tag.hookGain,
   Tag.kick, Tag.snare, Tag.hat]

/-- The five Tone.Loop objects the style starts on the transport (lines
250-277: drum, bass, chord, melody loops plus the sample-hook loop). -/
def loopTags : List Tag :=
  [Tag.drumLoop, Tag.bassLoop, Tag.chordLoop, Tag.melodyLoop, Tag.hookLoop]

/-- Build one style instance: allocate the voice nodes and the five loops and
schedule the loops on the transport. -/
def buildVoiceGraph (g : Nat) (a : AudioState) : AudioState :=
  { a with
    live := a.live ++ (voiceTags ++ loopTags).map (fun t => (g, t)),
    scheduled := a.scheduled ++ loopTags.map (fun t => (g, t)) }

/-- Nodes stopPlay disposes for the active graph, line by line:
styleInstance.stop() (line 289) stops and disposes the four loops and, via
hook.stopHook (line 166), the hook loop; styleInstance.dispose() (lines
292-295) disposes hookPlayer, hookEnv, hookGain (line 170), pad, lead, bass,
padGain; the master block (lines 382-388) disposes low, sat, reverb, limiter,
comp.  kick, snare, hat, vFilt and vGain appear in no dispose call, and the
vinyl noise and wobble LFO are only stop()ped (lines 385-386), never
disposed. -/
def disposedOnStop : List Tag :=
  [Tag.drumLoop, Tag.bassLoop, Tag.chordLoop, Tag.melodyLoop, Tag.hookLoop,
   Tag.hookPlayer, Tag.hookEnv, Tag.hookGain,
   Tag.pad, Tag.lead, Tag.bass, Tag.padGain,
   Tag.low, Tag.sat, Tag.reverb, Tag.limiter, Tag.comp]

/-- Free-running sources stopPlay stops (lines 385-386). -/
def stoppedOnStop : List Tag := [Tag.vinyl, Tag.wobble]

/-- stopPlay (lines 375-406).  If activeTrack is set it performs the node
operations listed in disposedOnStop/stoppedOnStop on that generation and
clears activeTrack; in every case it then stops the transport, cancels all
pending clock events (Tone.Transport.cancel(0), line 394) and clears
isPlaying.  Returns the new state together with the list of node operations
performed (the trace is empty when nothing was active).  All branches are
wrapped in try/catch in the source, so the call never raises. -/
def stopPlay (s : AppState) : AppState × List (Nat × Tag) :=
  match s.activeTrack with
  | some g =>
    let a := s.audio
    let a1 : AudioState :=
      { a with
        live := a.live.filter fun p => !(p.1 == g && disposedOnStop.contains p.2),
        runningSources :=
          a.runningSources.filter fun p => !(p.1 == g && stoppedOnStop.contains p.2),
        scheduled := [],
        transportRunning := false }
    ({ s with audio := a1, activeTrack := none, isPlaying := false },
      (disposedOnStop ++ stoppedOnStop).map fun t => (g, t))
  | none =>
    ({ s with
        audio := { s.audio with scheduled := [], transportRunning := false },
        isPlaying := false }, [])

/-- playProduction (lines 322-373), graph lifecycle only.  It first stops the
transport and cancels its pending events (line 326) — it does NOT stop or
dispose the previous activeTrack graph — then builds a fresh master bus, then
the style voice graph, assigns activeTrack, restarts the transport and sets
isPlaying.  `buildFails` models an exception thrown while assembling the
style instance (after createMasterBus succeeded): the catch block (lines
368-372) reports the error via handleError and calls stopPlay(). -/
def playProduction (s : AppState) (buildFails : Bool) : AppState :=
  let a0 := { s.audio with scheduled := [], transportRunning := false }
  let g := s.audio.gen
  let a1 := createMasterBus g { a0 with gen := g + 1 }
  if buildFails then
    (stopPlay { s with audio := a1, errorReported := true }).1
  else
    let a2 := buildVoiceGraph g a1
    { s with
        audio := { a2 with transportRunning := true },
        activeTrack := some g,
        isPlaying := true }

/-- Page-load state: no nodes, nothing scheduled, transport idle. -/
def initState : AppState := ⟨⟨0, [], [], [], false⟩, none, false, false⟩

/- ### Theorems -/

/-- The snapGo loop only ever returns its incoming candidate or a note built
from one of the remaining scale degrees. -/
theorem snapGo_shape (midi base : Int) (scale : List Int) (bd : Nat) (best : Int) :
    snapGo midi base scale bd best = best ∨
      ∃ deg ∈ scale, snapGo midi base scale bd best = base + deg := by
  induction scale generalizing bd best with
  | nil => exact Or.inl rfl
  | cons deg rest ih =>
    simp only [snapGo]
    split
    · rcases ih ((midi - (base + deg)).natAbs) (base + deg) with h | ⟨d, hd, hEq⟩
      · exact Or.inr ⟨deg, List.mem_cons_self deg rest, h⟩
      · exact Or.inr ⟨d, List.mem_cons_of_mem deg hd, hEq⟩
    · rcases ih bd best with h | ⟨d, hd, hEq⟩
      · exact Or.inl h
      · exact Or.inr ⟨d, List.mem_cons_of_mem deg hd, hEq⟩

/-- Claim C10: for every semitone offset, root pitch and non-empty scale list,
the value v returned by snapToScale satisfies (60 + v) - rootMidi = deg + 12*k
for some listed interval deg and integer k: the snapped pitch is always a
scale tone relative to the given root. -/
theorem snapToScale_in_scale (semitone rootMidi : Int) (scale : List Int)
    (h : scale ≠ []) :
    ∃ deg ∈ scale, ∃ k : Int,
      (60 + snapToScale semitone rootMidi scale) - rootMidi = deg + 12 * k := by
  obtain ⟨s0, rest, rfl⟩ : ∃ s0 rest, scale = s0 :: rest := by
    cases scale with
    | nil => exact absurd rfl h
    | cons a l => exact ⟨a, l, rfl⟩
  have hdef : snapToScale semitone rootMidi (s0 :: rest)
      = snapGo (60 + semitone)
          (rootMidi + ((60 + semitone) - rootMidi).fdiv 12 * 12) (s0 :: rest)
          ((60 + semitone)
            - (rootMidi + ((60 + semitone) - rootMidi).fdiv 12 * 12 + s0)).natAbs
          (rootMidi + ((60 + semitone) - rootMidi).fdiv 12 * 12 + s0) - 60 := rfl
  rcases snapGo_shape (60 + semitone)
      (rootMidi + ((60 + semitone) - rootMidi).fdiv 12 * 12) (s0 :: rest)
      ((60 + semitone)
        - (rootMidi + ((60 + semitone) - rootMidi).fdiv 12 * 12 + s0)).natAbs
      (rootMidi + ((60 + semitone) - rootMidi).fdiv 12 * 12 + s0)
    with hEq | ⟨d, hd, hEq⟩
  · refine ⟨s0, List.mem_cons_self s0 rest, ((60 + semitone) - rootMidi).fdiv 12, ?_⟩
    rw [hdef, hEq]
    ring
  · refine ⟨d, hd, ((60 + semitone) - rootMidi).fdiv 12, ?_⟩
    rw [hdef, hEq]
    ring

/-- Witness for C10 at semitone 1, root 60, the default scale. -/
theorem snapToScale_in_scale_witness :
    ∃ deg ∈ ([0, 2, 3, 5, 7, 8, 10] : List Int), ∃ k : Int,
      (60 + snapToScale 1 60 [0, 2, 3, 5, 7, 8, 10]) - 60 = deg + 12 * k :=
  snapToScale_in_scale 1 60 [0, 2, 3, 5, 7, 8, 10] (by decide)

/-- Claim C8: snapToScale(0, 60, [0,2,3,5,7,8,10]) returns 0, and
snapToScale(1, 60, [0,2,3,5,7,8,10]) returns 0 — which is in {0, 2} and never
1 — the distance tie between degrees 0 and 2 being broken by the first match
in interval-list order (the strict < at line 98 keeps the earlier match). -/
theorem snapToScale_spec_points :
    snapToScale 0 60 [0, 2, 3, 5, 7, 8, 10] = 0 ∧
    snapToScale 1 60 [0, 2, 3, 5, 7, 8, 10] = 0 ∧
    (snapToScale 1 60 [0, 2, 3, 5, 7, 8, 10] = 0 ∨
      snapToScale 1 60 [0, 2, 3, 5, 7, 8, 10] = 2) ∧
    snapToScale 1 60 [0, 2, 3, 5, 7, 8, 10] ≠ 1 := by
  refine ⟨rfl, rfl, Or.inl rfl, by decide⟩

/-- Claim C6 (code bug, off-by-one): on channel [0, 1] with windowSamples = 1
(msWindow 1 ms at 1000 Hz), the scan returns start position 0, but the window
of length 1 at position 1 has strictly more energy than the one at the
returned position: `bestPos = i - windowSamples` (line 126) is one before the
window the running sum covers, so the returned window is NOT maximal. -/
theorem findBestSlicePos_not_max :
    windowSamplesOf 1 1000 = 1 ∧
    findBestSlicePos [0, 1] 1 = 0 ∧
    windowEnergy [0, 1] 0 1 < windowEnergy [0, 1] 1 1 := by
  refine ⟨?_, ?_, ?_⟩
  · norm_num [windowSamplesOf]
  · norm_num [findBestSlicePos, sliceLoop, windowEnergy]
  · norm_num [windowEnergy]

/-- Claim C7 counterexample: when the fetch fails, the slice time actually
used by playProduction is 0, not the 0.3 s the claim states (findBestSliceTime
catches the error internally and returns 0, so the 0.3 fallback never fires). -/
theorem sliceTimeUsed_fallback_cex :
    sliceTimeUsed (Except.error "HTTP status 404") = 0 ∧ (0 : ℚ) ≠ 3 / 10 := by
  refine ⟨rfl, by norm_num⟩

/-- Claim C7 (amended): if fetching or decoding fails, findBestSliceTime
returns 0 normally (never rejecting), so the slice time used for playback is
0 seconds and the error is not propagated to the caller of play; on success
it also returns normally, so no error ever reaches playProduction from slice
detection. -/
theorem sliceTime_fallback_zero (e : String) (msWindow : ℚ)
    (channel : List ℚ) (sampleRate : ℚ) :
    findBestSliceTimeE (Except.error e) msWindow = Except.ok 0 ∧
    sliceTimeUsed (Except.error e) = 0 ∧
    findBestSliceTimeE (Except.ok (channel, sampleRate)) msWindow
      = Except.ok (max 0
          ((findBestSlicePos channel (windowSamplesOf msWindow sampleRate) : ℚ)
            / sampleRate)) :=
  ⟨rfl, rfl, rfl⟩

/-- Counting lemma: n ticks of the drum loop advance drumStep by exactly n. -/
theorem stepN_drumStep (n : Nat) (s : SeqCounters) :
    (stepN drumTick n s).drumStep = s.drumStep + n := by
  induction n generalizing s with
  | zero => rfl
  | succ n ih =>
    have h : (stepN drumTick (n + 1) s).drumStep
        = (stepN drumTick n (drumTick s).1).drumStep := rfl
    rw [h, ih]
    show s.drumStep + 1 + n = s.drumStep + (n + 1)
    omega

/-- Counting lemma: n ticks of the bass loop advance bassStep by exactly n. -/
theorem stepN_bassStep (n : Nat) (s : SeqCounters) :
    (stepN bassTick n s).bassStep = s.bassStep + n := by
  induction n generalizing s with
  | zero => rfl
  | succ n ih =>
    have h : (stepN bassTick (n + 1) s).bassStep
        = (stepN bassTick n (bassTick s).1).bassStep := rfl
    rw [h, ih]
    show s.bassStep + 1 + n = s.bassStep + (n + 1)
    omega

/-- Counting lemma: n ticks of the chord loop advance chordStep by exactly n. -/
theorem stepN_chordStep (chords : List (List String)) (n : Nat) (s : SeqCounters) :
    (stepN (chordTick chords) n s).chordStep = s.chordStep + n := by
  induction n generalizing s with
  | zero => rfl
  | succ n ih =>
    have h : (stepN (chordTick chords) (n + 1) s).chordStep
        = (stepN (chordTick chords) n ((chordTick chords) s).1).chordStep := rfl
    rw [h, ih]
    show s.chordStep + 1 + n = s.chordStep + (n + 1)
    omega

/-- The replaced melody callback never changes the counters at all. -/
theorem stepN_melody (n : Nat) (s : SeqCounters) : stepN melodyTick n s = s := by
  induction n generalizing s with
  | zero => rfl
  | succ n ih => exact ih s

/-- Claim C4 counterexample: after one tick of the melody loop, melodyStep mod
(melody-list length) is 0, not 1 mod 8 as the claim requires, because the
line-279 assignment replaced the callback that incremented it. -/
theorem melodyStep_not_advancing :
    (stepN melodyTick 1 seq0).mStep % attentionMelody.length
      ≠ 1 % attentionMelody.length := by decide

/-- Claim C4 (amended): after N ticks of its own subdivision, drumStep mod 16,
bassStep mod 8 and chordStep mod (chord-list length) each equal N mod (their
own length), each counter advancing independently on the shared clock; the
melody counter, however, never advances — melodyStep stays 0 for every N —
because melodyLoop.callback is replaced at line 279 by the pad-duck callback,
which does not increment it. -/
theorem step_counters_invariant (n : Nat) (chords : List (List String)) :
    (stepN drumTick n seq0).drumStep % 16 = n % 16 ∧
    (stepN bassTick n seq0).bassStep % 8 = n % 8 ∧
    (stepN (chordTick chords) n seq0).chordStep % chords.length
      = n % chords.length ∧
    (stepN melodyTick n seq0).mStep = 0 := by
  refine ⟨?_, ?_, ?_, ?_⟩
  · rw [stepN_drumStep]
    simp [seq0]
  · rw [stepN_bassStep]
    simp [seq0]
  · rw [stepN_chordStep]
    simp [seq0]
  · rw [stepN_melody]
    rfl

/-- Claim C5 (code bug): the melody-loop callback in force after
createAttentionLike returns emits only the pad duck-ramp and leaves the
counters untouched — the lead voice never triggers a melody note — whereas
the callback built at lines 272-275 (before the line-279 replacement) would
have triggered the next melody note and advanced mStep. -/
theorem melodyTick_drops_lead :
    melodyTick seq0 = (seq0, [Ev.padDuckRamp]) ∧
    melodyTickInitial attentionMelody seq0
      = ({ seq0 with mStep := 1 }, [Ev.leadNote "E5"]) :=
  ⟨rfl, rfl⟩

/-- Claim C1 (code bug): playing track A and then track B without an
intervening stop leaves BOTH voice graphs live.  playProduction only stops
the transport and cancels its events (line 326); it never stops or disposes
the previous activeTrack graph, so after the second play the generation-0
master bus (destination-connected limiter), its free-running vinyl noise and
its pad are all still live alongside the generation-1 graph: two VoiceGraphs
exist, not one. -/
theorem play_play_leaks_previous_graph :
    (playProduction (playProduction initState false) false).activeTrack = some 1 ∧
    (0, Tag.limiter) ∈ (playProduction (playProduction initState false) false).audio.live ∧
    (1, Tag.limiter) ∈ (playProduction (playProduction initState false) false).audio.live ∧
    (0, Tag.vinyl) ∈ (playProduction (playProduction initState false) false).audio.runningSources ∧
    (0, Tag.pad) ∈ (playProduction (playProduction initState false) false).audio.live := by
  decide

/-- Claim C2 (code bug): after play followed by stop, isPlaying is false and
all pending clock events are cancelled, but seven acquired nodes are still
live: stopPlay never disposes the drum kit (kick, snare, hat) or the
vinyl-noise chain (vFilt, vGain), and merely stops — never disposes — the
vinyl noise source and the wobble LFO. -/
theorem stop_leaks_nodes :
    ((stopPlay (playProduction initState false)).1.isPlaying = false ∧
      (stopPlay (playProduction initState false)).1.audio.scheduled = []) ∧
    (0, Tag.kick) ∈ (stopPlay (playProduction initState false)).1.audio.live ∧
    (0, Tag.snare) ∈ (stopPlay (playProduction initState false)).1.audio.live ∧
    (0, Tag.hat) ∈ (stopPlay (playProduction initState false)).1.audio.live ∧
    (0, Tag.vFilt) ∈ (stopPlay (playProduction initState false)).1.audio.live ∧
    (0, Tag.vGain) ∈ (stopPlay (playProduction initState false)).1.audio.live ∧
    (0, Tag.vinyl) ∈ (stopPlay (playProduction initState false)).1.audio.live ∧
    (0, Tag.wobble) ∈ (stopPlay (playProduction initState false)).1.audio.live := by
  decide

/-- Claim C3 (code bug): when an exception is thrown while assembling the
style voice graph (after createMasterBus succeeded), the catch block does
report the error and return the system to the not-playing state, but the
freshly built master bus is orphaned: activeTrack was never assigned, so
stopPlay disposes nothing — the generation-0 limiter stays live (connected to
the destination) and the vinyl noise keeps running. -/
theorem build_failure_orphans_master :
    (playProduction initState true).errorReported = true ∧
    (playProduction initState true).isPlaying = false ∧
    (playProduction initState true).activeTrack = none ∧
    (0, Tag.limiter) ∈ (playProduction initState true).audio.live ∧
    (0, Tag.vinyl) ∈ (playProduction initState true).audio.runningSources := by
  decide

/-- Claim C9: stop is idempotent — after any stopPlay, a second consecutive
stopPlay returns the state unchanged and performs no node operations (its
trace is empty); in particular calling stop when nothing is playing is a
no-op, not an error (every branch of the source is wrapped in try/catch and
the model is total). -/
theorem stopPlay_idempotent (s : AppState) :
    stopPlay (stopPlay s).1 = ((stopPlay s).1, []) := by
  obtain ⟨⟨g, l, r, sch, t⟩, act, p, e⟩ := s
  cases act <;> rfl

end Birdwave
